import Mathlib

/-!
Shallow embedding of the Mipha utilities (`utilities/converters.py` and
`utilities/paginator.py`) together with theorems settling the frozen claims
about the natural-language specification.

Strings are modelled as `List Char` (Python strings are sequences of unicode
code points, and the duckling spans are character offsets).  Timestamps are
modelled as integers (seconds); the only arithmetic the code performs on them
is adding a duration in seconds.  The external duckling HTTP service is
modelled by passing its decoded JSON response (a list of entries) as an
explicit argument; the current wall-clock instant read by `datetime.now` is
likewise an explicit argument.
-/

/-- Character set stripped by Python's `str.strip()` with no arguments
(whitespace; ASCII subset, which covers every string these claims touch). -/
def isSpacePy (c : Char) : Bool :=
  c = ' ' || c = '\t' || c = '\n' || c = '\r' || c = '\x0b' || c = '\x0c'

/-- Left-trim of Python `str.strip()`. -/
def ltrimPy (l : List Char) : List Char := l.dropWhile isSpacePy

/-- Right-trim of Python `str.strip()`. -/
def rtrimPy (l : List Char) : List Char := (l.reverse.dropWhile isSpacePy).reverse

/-- Python `str.strip()` (no arguments): remove leading and trailing whitespace. -/
def pyStrip (l : List Char) : List Char := rtrimPy (ltrimPy l)

/-- Python `str.lstrip(" ,.!:;")` as used for the residual label in
`WhenAndWhatConverter.convert` / `WhenAndWhatTransformer.transform`:
drop leading characters that are in the set. -/
def lstripPunct (l : List Char) : List Char :=
  l.dropWhile (fun c => c ∈ [' ', ',', '.', '!', ':', ';'])

/-- Python `str.isdigit()` restricted to ASCII digits (`False` on the empty
string, as in Python). -/
def isdigitPy (l : List Char) : Bool := !l.isEmpty && l.all Char.isDigit

/-- Python `int(...)` on an all-digits string. -/
def intOfDigits (l : List Char) : Nat :=
  l.foldl (fun a c => a * 10 + (c.toNat - 48)) 0

/-- Python `str.replace(pat, rep)`, fuel-indexed so that the recursion is
structural (each step consumes at least one character, so fuel = input length
is always enough): replace every non-overlapping occurrence of `pat`,
scanning left to right.  (For an empty `pat` Python would insert `rep`
between characters; the only pattern used here is `"Enter"`, so the
empty-pattern case is rendered as the identity.) -/
def replaceAllFuel (pat rep : List Char) : Nat → List Char → List Char
  | 0, l => l
  | fuel + 1, l =>
    match l with
    | [] => []
    | c :: rest =>
      if pat ≠ [] ∧ pat.isPrefixOf (c :: rest) then
        rep ++ replaceAllFuel pat rep fuel ((c :: rest).drop pat.length)
      else
        c :: replaceAllFuel pat rep fuel rest

/-- Python `str.replace(pat, rep)`. -/
def replaceAll (pat rep l : List Char) : List Char :=
  replaceAllFuel pat rep l.length l

/-- Simplified Python `repr` of a string (as interpolated by
`f"... {value!r}"` for quote-free input): surround with single quotes. -/
def pyRepr (l : List Char) : List Char :=
  Char.ofNat 39 :: l ++ [Char.ofNat 39]

/-! ### Duckling response model (`DucklingResponse` in `converters.py`) -/

/-- Dimension of a duckling candidate (the `dim` field, `"time"` or
`"duration"`). -/
inductive DucklingDim where
  | time
  | duration
deriving DecidableEq

/-- The `value` object of a duckling response entry.  For a `"time"` entry the
code reads `value["value"]` (an ISO-8601 instant, absent for some entries) and
parses it with `datetime.fromisoformat`; we model the parsed result directly
as an optional integer timestamp.  For a `"duration"` entry the code reads
`value["normalized"]["value"]` (seconds). -/
structure DucklingValue where
  whenValue : Option Int
  normalizedValue : Int
deriving DecidableEq

/-- One entry of the duckling response.  The source field `end` is a Lean
keyword and is rendered `endPos`. -/
structure DucklingEntry where
  dim : DucklingDim
  start : Nat
  endPos : Nat
  value : DucklingValue
deriving DecidableEq

/-- Error raised by the converter/transformer pipelines.
`couldNotParseTime` is `commands.BadArgument("Could not parse time.")`
(`BadDatetimeTransform` with the same message in the transformer);
`couldNotDistinguish` is `commands.BadArgument("Could not distinguish time
from argument.")` (resp. `BadDatetimeTransform`). -/
inductive ConvertError where
  | couldNotParseTime
  | couldNotDistinguish
deriving DecidableEq

/-- `DatetimeConverter.parse`: iterate over the duckling response in order;
a `"time"` entry contributes `(fromisoformat(value["value"]), start, end)`
when the `"value"` key is present; a `"duration"` entry contributes
`(datetime.datetime.now(utc) + timedelta(seconds=normalized), start, end)`.
`entries` is the decoded duckling response, `now` the reference time supplied
by the caller (resolved by `now = now or datetime.now(utc)` and then not used
further), `wallclock` the instant `datetime.datetime.now` returns inside the
loop. -/
def DatetimeConverter.parse (entries : List DucklingEntry) (now wallclock : Int) :
    List (Int × Nat × Nat) :=
  entries.filterMap fun t =>
    match t.dim with
    | .time =>
      match t.value.whenValue with
      | some v => some (v, t.start, t.endPos)
      | none => none
    | .duration => some (wallclock + t.value.normalizedValue, t.start, t.endPos)

/-- `DatetimeTransformer.parse`: verbatim copy of `DatetimeConverter.parse`
in the source. -/
def DatetimeTransformer.parse (entries : List DucklingEntry) (now wallclock : Int) :
    List (Int × Nat × Nat) :=
  entries.filterMap fun t =>
    match t.dim with
    | .time =>
      match t.value.whenValue with
      | some v => some (v, t.start, t.endPos)
      | none => none
    | .duration => some (wallclock + t.value.normalizedValue, t.start, t.endPos)

/-- `WhenAndWhatTransformer.parse`: verbatim copy of `DatetimeConverter.parse`
in the source. -/
def WhenAndWhatTransformer.parse (entries : List DucklingEntry) (now wallclock : Int) :
    List (Int × Nat × Nat) :=
  entries.filterMap fun t =>
    match t.dim with
    | .time =>
      match t.value.whenValue with
      | some v => some (v, t.start, t.endPos)
      | none => none
    | .duration => some (wallclock + t.value.normalizedValue, t.start, t.endPos)

/-! ### The "strip some common stuff" step shared by
`WhenAndWhatConverter.convert` and `WhenAndWhatTransformer.transform` -/

/-- The fixed filler sequences removed from the front of the argument
(first match wins, then the loop breaks). -/
def fillerLeads : List (List Char) :=
  ["me to ".data, "me in ".data, "me at ".data, "me that ".data]

/-- The fixed trailing sequence removed from the end of the argument. -/
def fromNowTrail : List Char := "from now".data

/-- The prefix-stripping loop: for the four fillers in order, if one starts
the string remove it and stop. -/
def stripLeadingFiller (s : List Char) : List Char :=
  if ("me to ".data).isPrefixOf s then s.drop 6
  else if ("me in ".data).isPrefixOf s then s.drop 6
  else if ("me at ".data).isPrefixOf s then s.drop 6
  else if ("me that ".data).isPrefixOf s then s.drop 8
  else s

/-- Whether one of the four fillers starts the string (the condition under
which the prefix-stripping loop removes something). -/
def hasLeadingFiller (s : List Char) : Bool :=
  ("me to ".data).isPrefixOf s || ("me in ".data).isPrefixOf s ||
    ("me at ".data).isPrefixOf s || ("me that ".data).isPrefixOf s

/-- The suffix-stripping loop: remove a trailing `"from now"` if present. -/
def stripFromNowTrail (s : List Char) : List Char :=
  if fromNowTrail.isSuffixOf s then s.take (s.length - 8) else s

/-- The complete "strip some common stuff" step: one leading filler removed,
one trailing `"from now"` removed, then `str.strip()`. -/
def stripCommon (s : List Char) : List Char :=
  pyStrip (stripFromNowTrail (stripLeadingFiller s))

/-! ### `WhenAndWhatConverter.convert` and `WhenAndWhatTransformer.transform` -/

/-- Placeholder returned when the residual text strips away entirely
(`what or "…"`). -/
def ellipsisLabel : List Char := "…".data

/-- `WhenAndWhatConverter.convert`, after the external pieces are made
explicit: `argument` is the raw command argument, `entries` the duckling
response for the stripped argument, `now` the reference time
(`ctx.message.created_at`), `wallclock` the instant read by `datetime.now`
inside `parse`.  The timezone lookup and the duckling-configuration check
(`RuntimeError` when no endpoint is configured) are outside the modelled
logic.  The silent `len(parsed_times) > 1` branch is a no-op in the source. -/
def WhenAndWhatConverter.convert (argument : List Char) (entries : List DucklingEntry)
    (now wallclock : Int) : Except ConvertError (Int × List Char) :=
  let argument := stripCommon argument
  match DatetimeConverter.parse entries now wallclock with
  | [] => .error .couldNotParseTime
  | (whenTs, b, e) :: _ =>
    if b ≠ 0 ∧ e ≠ argument.length then .error .couldNotDistinguish
    else
      let what := if b = 0 then lstripPunct (argument.drop (e + 1))
                  else pyStrip (argument.take b)
      let what := if ("to ".data).isPrefixOf what then what.drop 3 else what
      .ok (whenTs, if what = [] then ellipsisLabel else what)

/-- `WhenAndWhatTransformer.transform`: same stripping, parsing, span check
and residual computation as the converter, but the residual (`what`) is
discarded and only the timestamp is returned; there is no `what or "…"`
fallback in this method. -/
def WhenAndWhatTransformer.transform (value : List Char) (entries : List DucklingEntry)
    (now wallclock : Int) : Except ConvertError Int :=
  let value := stripCommon value
  match WhenAndWhatTransformer.parse entries now wallclock with
  | [] => .error .couldNotParseTime
  | (whenTs, b, e) :: _ =>
    if b ≠ 0 ∧ e ≠ value.length then .error .couldNotDistinguish
    else
      let what := if b = 0 then lstripPunct (value.drop (e + 1))
                  else pyStrip (value.take b)
      let _ := if ("to ".data).isPrefixOf what then what.drop 3 else what
      .ok whenTs

/-- Modelled from the spec's words for claim C1 (the code is the authority;
this definition is only used to compare the claim's formula against the
code): "the residual label is the substring of the text after the span's end
offset with leading punctuation/whitespace characters (space, comma, period,
colon, semicolon) stripped". -/
def specPrefixResidual (text : List Char) (e : Nat) : List Char :=
  (text.drop e).dropWhile (fun c => c ∈ [' ', ',', '.', ':', ';'])

/-! ### Paginator model (`utilities/paginator.py`)

The view state that the claims are about is `self.current_page` plus the
user-visible messages a navigation interaction sends.  A page source
(`menus.PageSource`) is modelled by its observable behaviour: whether it
paginates, its `get_max_pages()` result, whether `get_page(i)` succeeds
(raising `IndexError` otherwise — the only exception `show_checked_page`
catches), and whether `format_page`'s result leads to non-empty send kwargs
in `_get_kwargs_from_page` (a `dict`/`str`/`Embed`; anything else gives `{}`
and no message edit happens, leaving the interaction response unused). -/

/-- Behavioural model of a `menus.PageSource`. -/
structure PageSource where
  is_paginating : Bool
  get_max_pages : Option Nat
  page_ok : Int → Bool
  renders : Int → Bool

/-- The mutable view state the claims quantify over: `RoboPages.current_page`
(a Python `int`, hence `Int`), plus the log of user-visible messages sent
during the interaction being modelled. -/
structure PagesState where
  current_page : Int
  messages : List (List Char)
deriving DecidableEq

/-- Append one user-visible message (an `interaction...send_message` /
`followup.send`). -/
def pushMsg (s : PagesState) (m : List Char) : PagesState :=
  { s with messages := s.messages ++ [m] }

/-- `RoboPages.show_page`: `get_page(n)` first (its `IndexError` is modelled
by `none`), then `current_page = n`; the returned flag records whether the
interaction response was consumed by `edit_message` (it is iff the formatted
page produced non-empty kwargs).  Label updates do not touch the modelled
state. -/
def RoboPages.show_page (src : PageSource) (s : PagesState) (n : Int) :
    Option (PagesState × Bool) :=
  if src.page_ok n then some ({ s with current_page := n }, src.renders n) else none

/-- `RoboPages.show_checked_page`: when `get_max_pages()` is `None` the page
number cannot be checked and `show_page` runs unconditionally; otherwise it
runs only when `max_pages > page_number >= 0`.  An `IndexError` is caught and
ignored.  The flag is whether the interaction response was consumed. -/
def RoboPages.show_checked_page (src : PageSource) (s : PagesState) (n : Int) :
    PagesState × Bool :=
  match src.get_max_pages with
  | none => (RoboPages.show_page src s n).getD (s, false)
  | some m =>
    if (m : Int) > n ∧ n ≥ 0 then (RoboPages.show_page src s n).getD (s, false)
    else (s, false)

/-- `RoboPages.go_to_previous_page`: `show_checked_page(current_page - 1)`. -/
def RoboPages.go_to_previous_page (src : PageSource) (s : PagesState) : PagesState :=
  (RoboPages.show_checked_page src s (s.current_page - 1)).1

/-- `RoboPages.go_to_next_page`: `show_checked_page(current_page + 1)`. -/
def RoboPages.go_to_next_page (src : PageSource) (s : PagesState) : PagesState :=
  (RoboPages.show_checked_page src s (s.current_page + 1)).1

/-- Placeholder of the `NumberedPageModal` text input: the constructor
overwrites the default `"Enter a number"` with
`f"Enter a number between 1 and {max_pages}"` when `max_pages` is known. -/
def NumberedPageModal.placeholder (max_pages : Option Nat) : List Char :=
  match max_pages with
  | none => "Enter a number".data
  | some m => "Enter a number between 1 and ".data ++ (Nat.repr m).data

/-- `RoboPages.numbered_page`, modelling the path in which the modal was
submitted (the message exists, the modal neither timed out nor outlived the
view; those guards return early on external conditions).  A non-digit input
is rejected with `f"Expected a number not {value!r}"`; otherwise the 1-based
input is converted and handed to `show_checked_page`, and if that left the
modal interaction's response unused, the placeholder-derived error
(`placeholder.replace("Enter", "Expected")`) is sent. -/
def RoboPages.numbered_page (src : PageSource) (s : PagesState) (input : List Char) :
    PagesState :=
  if isdigitPy input = false then
    pushMsg s ("Expected a number not ".data ++ pyRepr input)
  else
    let n : Int := (intOfDigits input : Nat)
    let r := RoboPages.show_checked_page src s (n - 1)
    if r.2 = false then
      pushMsg r.1 (replaceAll ("Enter".data) ("Expected".data)
        (NumberedPageModal.placeholder src.get_max_pages))
    else r.1

/-! ### Mystbin paste-ID extraction (`MYSTBIN_REGEX`, `MystbinPasteConverter`)

The pattern is
`(?:(?:https?://)?(?:beta\.)?(?:mystb\.in\/))?(?P<id>(?:[A-Z]{1}[a-z]+)*)(?P<ext>\.\w+)?`.
Every component is optional or nullable, so a match (possibly empty) exists
at every offset; `re.search` returns the leftmost one, i.e. the match at
offset 0.  No backtracking across components can occur: the id and ext groups
never fail, and within the URL-prefix group the scheme/`beta.` alternatives
are prefix-disjoint from the required `mystb.in/` literal, so greedy
first-choice matching is exact. -/

/-- Regex class `[A-Z]`. -/
def isAsciiUpper (c : Char) : Bool := 'A' ≤ c && c ≤ 'Z'

/-- Regex class `[a-z]`. -/
def isAsciiLower (c : Char) : Bool := 'a' ≤ c && c ≤ 'z'

/-- Regex class `\w` (ASCII word characters; the `ext` group never reaches
the returned id). -/
def isWordChar (c : Char) : Bool := c.isAlphanum || c = '_'

/-- The required core of the optional URL-prefix group:
`(?:https?://)?(?:beta\.)?mystb\.in/`; `none` when the literal
`mystb.in/` is missing and the group as a whole matches empty. -/
def mystbinUrlCore (s : List Char) : Option (List Char) :=
  let s1 := if ("https://".data).isPrefixOf s then s.drop 8
            else if ("http://".data).isPrefixOf s then s.drop 7
            else s
  let s2 := if ("beta.".data).isPrefixOf s1 then s1.drop 5 else s1
  if ("mystb.in/".data).isPrefixOf s2 then some (s2.drop 9) else none

/-- The greedy `(?P<id>(?:[A-Z]{1}[a-z]+)*)` group: returns the captured id
and the rest of the input. -/
def mystbinIdGroup : List Char → List Char × List Char
  | [] => ([], [])
  | [c] => ([], [c])
  | c :: d :: rest =>
    if isAsciiUpper c && isAsciiLower d then
      let low := (d :: rest).takeWhile isAsciiLower
      let rem := (d :: rest).dropWhile isAsciiLower
      let (i2, r2) := mystbinIdGroup rem
      (c :: (low ++ i2), r2)
    else ([], c :: d :: rest)
termination_by l => l.length
decreasing_by
  exact Nat.lt_of_le_of_lt (List.IsSuffix.length_le (List.dropWhile_suffix _)) (by simp)

/-- The greedy `(?P<ext>\.\w+)?` group (consumed but never part of the id). -/
def mystbinExtGroup (s : List Char) : List Char :=
  match s with
  | '.' :: c :: rest =>
    if isWordChar c then (c :: rest).dropWhile isWordChar else s
  | _ => s

/-- A match of `MYSTBIN_REGEX` at a given offset: the id capture and the rest
of the input after the whole match.  Total, because every component of the
pattern is optional/nullable. -/
def mystbinMatchAt (s : List Char) : List Char × List Char :=
  let s1 := (mystbinUrlCore s).getD s
  let (idCapture, s2) := mystbinIdGroup s1
  (idCapture, mystbinExtGroup s2)

/-- `MYSTBIN_REGEX.search(argument)`: the leftmost match.  Since the pattern
matches (possibly emptily) at every offset, the leftmost match is the one at
offset 0, and the search never returns `None`; the `Option` mirrors
`re.search`'s signature. -/
def mystbinSearch (s : List Char) : Option (List Char) :=
  some (mystbinMatchAt s).1

/-- `MystbinPasteConverter.convert`: raise
`ConversionError(... "No Mystbin IDs found in this text.")` when the search
returns `None`, else return the `id` capture. -/
def MystbinPasteConverter.convert (argument : List Char) : Except (List Char) (List Char) :=
  match mystbinSearch argument with
  | none => .error ("No Mystbin IDs found in this text.".data)
  | some i => .ok i

/-! ### Helper lemmas -/

theorem rtrimPy_eq_rdropWhile (l : List Char) : rtrimPy l = List.rdropWhile isSpacePy l := rfl

theorem dropWhile_eq_self_of_isPrefix {α : Type} {p : α → Bool} {u v : List α}
    (hu : u.dropWhile p = u) (hv : v <+: u) : v.dropWhile p = v := by
  rw [List.dropWhile_eq_self_iff] at hu ⊢
  intro hl
  obtain ⟨t, rfl⟩ := hv
  have hlu : 0 < (v ++ t).length := by
    simp only [List.length_append]
    omega
  have := hu hlu
  rwa [List.get_append 0 hl] at this

theorem pyStrip_idem (l : List Char) : pyStrip (pyStrip l) = pyStrip l := by
  unfold pyStrip
  rw [rtrimPy_eq_rdropWhile, rtrimPy_eq_rdropWhile]
  unfold ltrimPy
  rw [dropWhile_eq_self_of_isPrefix
        (List.dropWhile_idempotent isSpacePy l)
        (List.rdropWhile_prefix isSpacePy (l.dropWhile isSpacePy)),
      List.rdropWhile_idempotent]

theorem pyStrip_length_le (l : List Char) : (pyStrip l).length ≤ l.length := by
  unfold pyStrip
  rw [rtrimPy_eq_rdropWhile]
  exact Nat.le_trans
    (List.IsPrefix.length_le (List.rdropWhile_prefix isSpacePy (ltrimPy l)))
    (List.IsSuffix.length_le (List.dropWhile_suffix isSpacePy))

theorem stripFromNowTrail_length_le (l : List Char) :
    (stripFromNowTrail l).length ≤ l.length := by
  unfold stripFromNowTrail
  split
  · simp [List.length_take]
  · exact Nat.le_refl _

theorem stripFromNowTrail_length_lt {l : List Char}
    (h : fromNowTrail.isSuffixOf l = true) : (stripFromNowTrail l).length < l.length := by
  have hlen : 8 ≤ l.length := by
    have := List.IsSuffix.length_le (List.isSuffixOf_iff_suffix.mp h)
    simpa [fromNowTrail] using this
  unfold stripFromNowTrail
  rw [if_pos h]
  simp only [List.length_take]
  omega

theorem stripLeadingFiller_length_lt {l : List Char}
    (h : hasLeadingFiller l = true) : (stripLeadingFiller l).length < l.length := by
  have hdrop : ∀ k : Nat, 0 < k → k ≤ l.length → (l.drop k).length < l.length := by
    intro k hk hkl
    rw [List.length_drop]
    omega
  unfold hasLeadingFiller at h
  unfold stripLeadingFiller
  by_cases h1 : ("me to ".data).isPrefixOf l
  · rw [if_pos h1]
    exact hdrop 6 (by omega) (by
      have := List.IsPrefix.length_le (List.isPrefixOf_iff_prefix.mp h1)
      simpa using this)
  · rw [if_neg h1]
    by_cases h2 : ("me in ".data).isPrefixOf l
    · rw [if_pos h2]
      exact hdrop 6 (by omega) (by
        have := List.IsPrefix.length_le (List.isPrefixOf_iff_prefix.mp h2)
        simpa using this)
    · rw [if_neg h2]
      by_cases h3 : ("me at ".data).isPrefixOf l
      · rw [if_pos h3]
        exact hdrop 6 (by omega) (by
          have := List.IsPrefix.length_le (List.isPrefixOf_iff_prefix.mp h3)
          simpa using this)
      · rw [if_neg h3]
        by_cases h4 : ("me that ".data).isPrefixOf l
        · rw [if_pos h4]
          exact hdrop 8 (by omega) (by
            have := List.IsPrefix.length_le (List.isPrefixOf_iff_prefix.mp h4)
            simpa using this)
        · exfalso
          simp [h1, h2, h3, h4] at h

theorem stripLeadingFiller_eq_self {l : List Char}
    (h : hasLeadingFiller l = false) : stripLeadingFiller l = l := by
  unfold hasLeadingFiller at h
  simp only [Bool.or_eq_false_iff] at h
  unfold stripLeadingFiller
  rw [if_neg (by simp [h.1.1.1]), if_neg (by simp [h.1.1.2]),
      if_neg (by simp [h.1.2]), if_neg (by simp [h.2])]

theorem stripFromNowTrail_eq_self {l : List Char}
    (h : fromNowTrail.isSuffixOf l = false) : stripFromNowTrail l = l := by
  unfold stripFromNowTrail
  rw [if_neg (by simp [h])]

theorem stripCommon_length_lt {l : List Char}
    (h : hasLeadingFiller l = true ∨ fromNowTrail.isSuffixOf l = true) :
    (stripCommon l).length < l.length := by
  unfold stripCommon
  rcases h with h | h
  · exact Nat.lt_of_le_of_lt
      (Nat.le_trans (pyStrip_length_le _) (stripFromNowTrail_length_le _))
      (stripLeadingFiller_length_lt h)
  · by_cases hf : hasLeadingFiller l = true
    · exact Nat.lt_of_le_of_lt
        (Nat.le_trans (pyStrip_length_le _) (stripFromNowTrail_length_le _))
        (stripLeadingFiller_length_lt hf)
    · rw [stripLeadingFiller_eq_self (by simpa using hf)]
      exact Nat.lt_of_le_of_lt (pyStrip_length_le _) (stripFromNowTrail_length_lt h)

theorem stripCommon_pyStrip_fixed (s : List Char) : pyStrip (stripCommon s) = stripCommon s := by
  unfold stripCommon
  exact pyStrip_idem _

/-! ### Claim theorems -/

/-- C7 (counterexample): the strip step is not idempotent.  Stripping
`"me to me to x"` removes only the first filler occurrence and yields
`"me to x"`, which the strip step shortens again to `"x"`. -/
theorem stripCommon_not_idempotent :
    stripCommon (stripCommon ("me to me to x".data)) ≠ stripCommon ("me to me to x".data) := by
  decide

/-- C7 (amended): re-running the fixed prefix/suffix strip on an
already-stripped string is a no-op precisely when the stripped string does
not itself start with one of the filler sequences and does not end with
`"from now"`; in general the strip is not idempotent, because removing one
leading filler (or one trailing `"from now"`) can expose another. -/
theorem stripCommon_restrip_iff (s : List Char) :
    stripCommon (stripCommon s) = stripCommon s ↔
      (hasLeadingFiller (stripCommon s) = false ∧
        fromNowTrail.isSuffixOf (stripCommon s) = false) := by
  constructor
  · intro h
    by_contra hc
    rw [not_and_or] at hc
    have hor : hasLeadingFiller (stripCommon s) = true ∨
        fromNowTrail.isSuffixOf (stripCommon s) = true := by
      rcases hc with hc | hc
      · exact Or.inl (by simpa using hc)
      · exact Or.inr (by simpa using hc)
    have hlt := stripCommon_length_lt hor
    rw [h] at hlt
    exact Nat.lt_irrefl _ hlt
  · rintro ⟨h1, h2⟩
    show pyStrip (stripFromNowTrail (stripLeadingFiller (stripCommon s))) = stripCommon s
    rw [stripLeadingFiller_eq_self h1, stripFromNowTrail_eq_self h2,
        stripCommon_pyStrip_fixed]

/-- C2: for a `"duration"` candidate the parse step resolves the timestamp to
the *wall-clock instant read by `datetime.datetime.now` inside the loop* plus
the normalized seconds — the supplied reference time `now` is resolved at the
top of `parse` and then never used, so the result differs from
`now + duration_seconds` whenever the wall clock has moved past `now`.  Here:
a 60-second duration with `now = 0` and wall clock `5` resolves to `65`, not
`60`. -/
theorem DatetimeConverter.parse_duration_ignores_now :
    (∀ now wallclock : Int,
      DatetimeConverter.parse [⟨.duration, 0, 5, ⟨none, 60⟩⟩] now wallclock
        = [(wallclock + 60, 0, 5)])
    ∧ DatetimeConverter.parse [⟨.duration, 0, 5, ⟨none, 60⟩⟩] 0 5
        ≠ [((0 : Int) + 60, 0, 5)] :=
  ⟨fun _ _ => rfl, by decide⟩

/-- C1 (counterexample): for the input `"in 1h to sleep"` with a single
duration candidate spanning `"in 1h"` (begin 0, end 5, a strict prefix of the
14-character text), the converter returns the residual `"sleep"`, while the
claim's formula — the substring after the span's end offset with leading
space/comma/period/colon/semicolon stripped — gives `"to sleep"`. -/
theorem WhenAndWhatConverter.prefix_residual_cex :
    WhenAndWhatConverter.convert ("in 1h to sleep".data)
        [⟨.duration, 0, 5, ⟨none, 3600⟩⟩] 0 0 = .ok (3600, "sleep".data)
    ∧ 5 < (stripCommon ("in 1h to sleep".data)).length
    ∧ specPrefixResidual (stripCommon ("in 1h to sleep".data)) 5 = "to sleep".data
    ∧ ("sleep".data : List Char) ≠ "to sleep".data :=
  ⟨rfl, by decide, rfl, by decide⟩

/-- C1 (amended): when the selected candidate's span is a strict prefix of
the trimmed text (begin 0, end < length), the converter succeeds and the
residual label is the substring starting one character *past* the span's end
offset (the character at the end offset itself is skipped), with leading
characters among space, comma, period, exclamation mark, colon, semicolon
stripped, then one leading `"to "` removed if present, and replaced by the
ellipsis placeholder if empty. -/
theorem WhenAndWhatConverter.prefix_residual_amended
    (arg : List Char) (entries : List DucklingEntry) (now wallclock w : Int)
    (e : Nat) (rest : List (Int × Nat × Nat))
    (hp : DatetimeConverter.parse entries now wallclock = (w, 0, e) :: rest)
    (he : e < (stripCommon arg).length) :
    WhenAndWhatConverter.convert arg entries now wallclock =
      .ok (w,
        let r0 := lstripPunct ((stripCommon arg).drop (e + 1))
        let r1 := if ("to ".data).isPrefixOf r0 then r0.drop 3 else r0
        if r1 = [] then ellipsisLabel else r1) := by
  simp [WhenAndWhatConverter.convert, hp]

/-- C1 (amended, witness): concrete instance of the amended claim. -/
theorem WhenAndWhatConverter.prefix_residual_amended_witness :
    WhenAndWhatConverter.convert ("in 1h buy milk".data)
        [⟨.duration, 0, 5, ⟨none, 3600⟩⟩] 0 0 = .ok (3600, "buy milk".data) :=
  WhenAndWhatConverter.prefix_residual_amended ("in 1h buy milk".data)
    [⟨.duration, 0, 5, ⟨none, 3600⟩⟩] 0 0 3600 5 [] rfl (by decide)

/-- C3: given a selected candidate, the converter fails with the
`AmbiguousPhrase` error ("Could not distinguish time from argument.") exactly
when the candidate's span neither starts at offset 0 nor ends at the length
of the trimmed text; in particular a pure prefix or pure suffix span never
produces that error. -/
theorem WhenAndWhatConverter.ambiguous_iff
    (arg : List Char) (entries : List DucklingEntry) (now wallclock w : Int)
    (b e : Nat) (rest : List (Int × Nat × Nat))
    (hp : DatetimeConverter.parse entries now wallclock = (w, b, e) :: rest) :
    WhenAndWhatConverter.convert arg entries now wallclock = .error .couldNotDistinguish
      ↔ (b ≠ 0 ∧ e ≠ (stripCommon arg).length) := by
  by_cases hc : b ≠ 0 ∧ e ≠ (stripCommon arg).length
  · simp [WhenAndWhatConverter.convert, hp, hc]
  · simp only [WhenAndWhatConverter.convert, hp]
    simp [hc]

/-- C3 (witness): a span strictly inside `"buy in 1h milk"` (begin 4, end 9,
length 14) fails with the ambiguity error. -/
theorem WhenAndWhatConverter.ambiguous_iff_witness :
    WhenAndWhatConverter.convert ("buy in 1h milk".data)
        [⟨.duration, 4, 9, ⟨none, 3600⟩⟩] 0 0 = .error .couldNotDistinguish :=
  (WhenAndWhatConverter.ambiguous_iff ("buy in 1h milk".data)
    [⟨.duration, 4, 9, ⟨none, 3600⟩⟩] 0 0 3600 4 9 [] rfl).mpr (by decide)

theorem ifEmptyEllipsis_ne_nil (r : List Char) :
    (if r = [] then ellipsisLabel else r) ≠ [] := by
  split
  · decide
  · assumption

/-- C4: when the selected candidate's span covers the whole trimmed text
(begin 0, end = length), the converter returns the ellipsis placeholder as
the residual; and in general the residual of a successful conversion is never
the empty string. -/
theorem WhenAndWhatConverter.residual_never_empty :
    (∀ (arg : List Char) (entries : List DucklingEntry) (now wallclock w : Int)
        (rest : List (Int × Nat × Nat)),
      DatetimeConverter.parse entries now wallclock
          = (w, 0, (stripCommon arg).length) :: rest →
      WhenAndWhatConverter.convert arg entries now wallclock = .ok (w, ellipsisLabel))
    ∧ (∀ (arg : List Char) (entries : List DucklingEntry) (now wallclock : Int)
        (p : Int × List Char),
      WhenAndWhatConverter.convert arg entries now wallclock = .ok p → p.2 ≠ []) := by
  constructor
  · intro arg entries now wallclock w rest hp
    have hdrop : (stripCommon arg).drop ((stripCommon arg).length + 1) = [] :=
      List.drop_eq_nil_of_le (by omega)
    have hpre : ("to ".data).isPrefixOf ([] : List Char) = false := rfl
    simp [WhenAndWhatConverter.convert, hp, hdrop, lstripPunct, hpre]
  · intro arg entries now wallclock p hc
    cases hps : DatetimeConverter.parse entries now wallclock with
    | nil => simp [WhenAndWhatConverter.convert, hps] at hc
    | cons hd tl =>
      obtain ⟨w, b, e⟩ := hd
      by_cases hbe : b ≠ 0 ∧ e ≠ (stripCommon arg).length
      · simp [WhenAndWhatConverter.convert, hps, hbe] at hc
      · simp only [WhenAndWhatConverter.convert, hps] at hc
        rw [if_neg hbe] at hc
        simp only [Except.ok.injEq] at hc
        subst hc
        exact ifEmptyEllipsis_ne_nil _

/-- C4 (witness): a duration candidate spanning all of `"in 1h"` yields the
ellipsis residual, which is non-empty. -/
theorem WhenAndWhatConverter.residual_never_empty_witness :
    WhenAndWhatConverter.convert ("in 1h".data) [⟨.duration, 0, 5, ⟨none, 3600⟩⟩] 0 0
        = .ok (3600, ellipsisLabel)
    ∧ ((3600 : Int), ellipsisLabel).2 ≠ [] := by
  have h := WhenAndWhatConverter.residual_never_empty.1 ("in 1h".data)
    [⟨.duration, 0, 5, ⟨none, 3600⟩⟩] 0 0 3600 [] rfl
  exact ⟨h, WhenAndWhatConverter.residual_never_empty.2 ("in 1h".data)
    [⟨.duration, 0, 5, ⟨none, 3600⟩⟩] 0 0 _ h⟩

theorem whenAndWhat_parse_eq : WhenAndWhatTransformer.parse = DatetimeConverter.parse := rfl

/-- C9: the slash-command transformer performs the same stripping, parsing,
span check and residual computation as the prefix-command converter, but
returns only the resolved timestamp: on every input it equals the first
component of the converter's result (and its body applies no ellipsis
fallback — the residual is computed, `"to "`-stripped, and discarded). -/
theorem WhenAndWhatTransformer.transform_eq_fst_of_convert
    (v : List Char) (entries : List DucklingEntry) (now wallclock : Int) :
    WhenAndWhatTransformer.transform v entries now wallclock =
      (WhenAndWhatConverter.convert v entries now wallclock).map Prod.fst := by
  simp only [WhenAndWhatTransformer.transform, WhenAndWhatConverter.convert,
    whenAndWhat_parse_eq]
  cases DatetimeConverter.parse entries now wallclock with
  | nil => rfl
  | cons hd tl =>
    obtain ⟨w, b, e⟩ := hd
    by_cases hbe : b ≠ 0 ∧ e ≠ (stripCommon v).length
    · simp [hbe, Except.map]
    · simp [hbe, Except.map]

theorem RoboPages.show_checked_page_some (src : PageSource) (s : PagesState)
    (n : Int) (m : Nat) (hm : src.get_max_pages = some m) :
    RoboPages.show_checked_page src s n =
      if (m : Int) > n ∧ n ≥ 0 then (RoboPages.show_page src s n).getD (s, false)
      else (s, false) := by
  unfold RoboPages.show_checked_page
  rw [hm]

theorem RoboPages.show_checked_page_none (src : PageSource) (s : PagesState)
    (n : Int) (hm : src.get_max_pages = none) :
    RoboPages.show_checked_page src s n = (RoboPages.show_page src s n).getD (s, false) := by
  unfold RoboPages.show_checked_page
  rw [hm]

theorem RoboPages.numbered_page_digit (src : PageSource) (s : PagesState)
    (input : List Char) (hd : isdigitPy input = true) :
    RoboPages.numbered_page src s input =
      (let r := RoboPages.show_checked_page src s
         (((intOfDigits input : Nat) : Int) - 1)
       if r.2 = false then
         pushMsg r.1 (replaceAll ("Enter".data) ("Expected".data)
           (NumberedPageModal.placeholder src.get_max_pages))
       else r.1) := by
  unfold RoboPages.numbered_page
  rw [if_neg (by simp [hd])]

/-- C5 (counterexample): with a page source that reports an unknown (`None`)
maximum page count and whose `get_page` accepts every index (so no
`IndexError` is raised), `go_to_previous` at index 0 is *not* a no-op: the
unchecked `show_page` call sets `current_page` to `-1`. -/
theorem RoboPages.go_to_previous_unbounded_cex :
    RoboPages.go_to_previous_page ⟨true, none, fun _ => true, fun _ => true⟩ ⟨0, []⟩
      ≠ (⟨0, []⟩ : PagesState) := by
  decide

/-- C5 (amended): when the source reports a known maximum page count,
`go_to_previous` at index 0 and `go_to_next` at index `max_pages - 1` leave
`current_page` unchanged; when the maximum page count is unknown (`None`),
the navigation is unchecked, and `go_to_previous` at index 0 leaves
`current_page` unchanged only if fetching page `-1` raises `IndexError` —
otherwise `current_page` becomes `-1`. -/
theorem RoboPages.nav_clamp_amended (src : PageSource) (s : PagesState) (m : Nat) :
    (src.get_max_pages = some m →
      (s.current_page = 0 → RoboPages.go_to_previous_page src s = s) ∧
      (s.current_page = (m : Int) - 1 → RoboPages.go_to_next_page src s = s))
    ∧ (src.get_max_pages = none → s.current_page = 0 →
      RoboPages.go_to_previous_page src s =
        if src.page_ok (-1) then { s with current_page := -1 } else s) := by
  constructor
  · intro hm
    constructor
    · intro h0
      unfold RoboPages.go_to_previous_page
      rw [h0, RoboPages.show_checked_page_some src s (0 - 1) m hm,
        if_neg (by omega)]
    · intro hlast
      unfold RoboPages.go_to_next_page
      rw [hlast, RoboPages.show_checked_page_some src s ((m : Int) - 1 + 1) m hm,
        if_neg (by omega)]
  · intro hm h0
    unfold RoboPages.go_to_previous_page
    have h01 : (0 : Int) - 1 = -1 := by norm_num
    rw [h0, h01, RoboPages.show_checked_page_none src s (-1) hm]
    unfold RoboPages.show_page
    by_cases hpk : src.page_ok (-1)
    · rw [if_pos hpk, if_pos hpk]
      rfl
    · rw [if_neg hpk, if_neg hpk]
      rfl

/-- C5 (amended, witness): with a known page count of 5, the previous button
at index 0 and the next button at index 4 are no-ops. -/
theorem RoboPages.nav_clamp_amended_witness :
    RoboPages.go_to_previous_page ⟨true, some 5, fun _ => true, fun _ => true⟩ ⟨0, []⟩
        = (⟨0, []⟩ : PagesState)
    ∧ RoboPages.go_to_next_page ⟨true, some 5, fun _ => true, fun _ => true⟩ ⟨4, []⟩
        = (⟨4, []⟩ : PagesState) :=
  ⟨((RoboPages.nav_clamp_amended ⟨true, some 5, fun _ => true, fun _ => true⟩ ⟨0, []⟩ 5).1
      rfl).1 rfl,
   ((RoboPages.nav_clamp_amended ⟨true, some 5, fun _ => true, fun _ => true⟩ ⟨4, []⟩ 5).1
      rfl).2 (by decide)⟩

/-- C6: on a source with 10 known pages whose page 2 fetch succeeds,
jump-to-page input `"3"` moves `current_page` to the 0-based index 2; and any
input that is not all digits leaves the state unchanged except for appending
the user-visible error message `Expected a number not {value!r}`. -/
theorem RoboPages.numbered_page_spec (src : PageSource) (s : PagesState)
    (hm : src.get_max_pages = some 10) (hpk : src.page_ok 2 = true) :
    (RoboPages.numbered_page src s ("3".data)).current_page = 2
    ∧ ∀ input : List Char, isdigitPy input = false →
        RoboPages.numbered_page src s input =
          pushMsg s ("Expected a number not ".data ++ pyRepr input) := by
  constructor
  · have h3 : ((intOfDigits ("3".data) : Nat) : Int) - 1 = 2 := by decide
    have hc : ((10 : Nat) : Int) > 2 ∧ (2 : Int) ≥ 0 := by omega
    rw [RoboPages.numbered_page_digit src s ("3".data) (by decide), h3,
      RoboPages.show_checked_page_some src s 2 10 hm, if_pos hc]
    unfold RoboPages.show_page
    rw [if_pos hpk]
    simp only [Option.getD_some]
    split
    · rfl
    · rfl
  · intro input h
    unfold RoboPages.numbered_page
    rw [if_pos (by simp [h])]

/-- C6 (witness): concrete instances of both halves. -/
theorem RoboPages.numbered_page_spec_witness :
    (RoboPages.numbered_page ⟨true, some 10, fun _ => true, fun _ => true⟩ ⟨0, []⟩
        ("3".data)).current_page = 2
    ∧ RoboPages.numbered_page ⟨true, some 10, fun _ => true, fun _ => true⟩ ⟨0, []⟩
        ("ab".data)
        = pushMsg ⟨0, []⟩ ("Expected a number not ".data ++ pyRepr ("ab".data)) :=
  ⟨(RoboPages.numbered_page_spec ⟨true, some 10, fun _ => true, fun _ => true⟩ ⟨0, []⟩
      rfl rfl).1,
   (RoboPages.numbered_page_spec ⟨true, some 10, fun _ => true, fun _ => true⟩ ⟨0, []⟩
      rfl rfl).2 ("ab".data) (by decide)⟩

/-- C10: with a known maximum page count `m`, an all-digits jump input whose
0-based conversion is out of range (`n = 0`, or `n - 1 >= m`) leaves
`current_page` unchanged (the checked render is skipped) and sends the
message derived from the modal placeholder by
`placeholder.replace("Enter", "Expected")`, i.e.
`"Expected a number between 1 and {m}"` — unlike out-of-range button
navigation, which is silent. -/
theorem RoboPages.numbered_page_out_of_range (src : PageSource) (s : PagesState)
    (m : Nat) (input : List Char)
    (hm : src.get_max_pages = some m)
    (hd : isdigitPy input = true)
    (hout : intOfDigits input = 0 ∨ (m : Int) ≤ ((intOfDigits input : Nat) : Int) - 1) :
    RoboPages.numbered_page src s input =
      pushMsg s (replaceAll ("Enter".data) ("Expected".data)
        (NumberedPageModal.placeholder (some m))) := by
  have hcond : ¬((m : Int) > ((intOfDigits input : Nat) : Int) - 1 ∧
      ((intOfDigits input : Nat) : Int) - 1 ≥ 0) := by
    rcases hout with h | h
    · rw [h]
      omega
    · omega
  rw [RoboPages.numbered_page_digit src s input hd,
    RoboPages.show_checked_page_some src s (((intOfDigits input : Nat) : Int) - 1) m hm,
    if_neg hcond, hm]
  rfl

/-- C10 (witness): input `"11"` with 10 pages reports
`"Expected a number between 1 and 10"` and does not move off page 3. -/
theorem RoboPages.numbered_page_out_of_range_witness :
    RoboPages.numbered_page ⟨true, some 10, fun _ => true, fun _ => true⟩ ⟨3, []⟩
        ("11".data)
      = pushMsg ⟨3, []⟩ ("Expected a number between 1 and 10".data) :=
  RoboPages.numbered_page_out_of_range ⟨true, some 10, fun _ => true, fun _ => true⟩
    ⟨3, []⟩ 10 ("11".data) rfl (by decide) (Or.inr (by decide))

/-- C8: for every input text the paste-ID converter either returns the id
capture of a match of the pattern or fails with an error, and it fails
exactly when the search finds no match.  Because every component of
`MYSTBIN_REGEX` is optional or nullable, the search always finds a (possibly
empty) match at offset 0, so the failure branch is unreachable and the
biconditional holds with both sides false. -/
theorem MystbinPasteConverter.convert_spec (s : List Char) :
    (MystbinPasteConverter.convert s = .ok (mystbinMatchAt s).1
      ∨ (∃ msg, MystbinPasteConverter.convert s = .error msg))
    ∧ ((∃ msg, MystbinPasteConverter.convert s = .error msg) ↔ mystbinSearch s = none) := by
  refine ⟨Or.inl rfl, ?_, ?_⟩
  · rintro ⟨msg, h⟩
    simp [MystbinPasteConverter.convert, mystbinSearch] at h
  · intro h
    simp [mystbinSearch] at h
